import Mathlib

/-!
# Scroll effects of the knowledge-museum page (`src/script.js`)

A shallow embedding of `script.js`: the `ScrollAnimator` class (reveal flags,
per-card scroll transform, hero parallax and navbar background, the two
frame-coalescing `ticking` flags) and the two hero pointer handlers.

Numbers are exact rationals (`ℚ`): `0.1` is `1/10`, `0.3` is `3/10`, and so on.
Where the exact value of a result matters (the clamped case of lines 51-63), the same
lines are also embedded over `Double`, a model of IEEE 754 binary64 in which every
operation rounds its exact result to the nearest representable value, ties to even.
The document is an explicit value of type `Page` that every handler transforms.
Template strings such as `translateY(${a}px) scale(${b})` are kept as
structured values of type `Transform`, one constructor per string shape.
-/

namespace KnowledgeMuseum

/-! ## Data model -/

/-- The part of a `DOMRect` the script reads: `rect.top` and `rect.height`. -/
structure Rect where
  top : ℚ
  height : ℚ
  deriving DecidableEq

/-- `rect.bottom` of a `DOMRect`, namely `top + height`. -/
def Rect.bottom (r : Rect) : ℚ := r.top + r.height

/-- The values the script assigns to `style.transform`, one constructor per string shape. -/
inductive Transform where
  /-- The string `translateY(${translateY}px) scale(${scale})` (lines 69 and 76). -/
  | translateYScale (translateY scale : ℚ)
  /-- The string `translateY(${translateY}px)` (line 114). -/
  | translateY (translateY : ℚ)
  /-- The string `translate(${x}px, ${y}px)` (line 197). -/
  | translatePx (x y : ℚ)
  /-- The literal `'translate(0, 0)'` (line 204). -/
  | translateZero
  deriving DecidableEq

/-- The values the script assigns to the navbar `style.background`. -/
inductive Background where
  /-- The literal `'rgba(0, 0, 0, 0.95)'` (line 122). -/
  | dark
  /-- The literal `'rgba(0, 0, 0, 0.8)'` (line 124). -/
  | light
  deriving DecidableEq

/-- The CSS text of a navbar background value. -/
def Background.css : Background → String
  | .dark => "rgba(0, 0, 0, 0.95)"
  | .light => "rgba(0, 0, 0, 0.8)"

/-- A `.subject-image-container` inside a card: only its inline transform is touched. -/
structure ImageContainer where
  transform : Option Transform
  deriving DecidableEq

/-- A `.subject-card` element: bounding rectangle, the `active` class, inline transform and
opacity (`none` while never written), and the optional image container. -/
structure Card where
  rect : Rect
  active : Bool
  transform : Option Transform
  opacity : Option ℚ
  imageContainer : Option ImageContainer
  deriving DecidableEq

/-- A `.section-title` or `.section-text` element: bounding rectangle and the `active` class. -/
structure Section where
  rect : Rect
  active : Bool
  deriving DecidableEq

/-- The `.hero-content` element: only its inline transform is touched. -/
structure HeroContent where
  transform : Option Transform
  deriving DecidableEq

/-- The `.hero` element: `offsetHeight`, inline opacity and the optional `.hero-content`. -/
structure Hero where
  offsetHeight : ℚ
  opacity : Option ℚ
  heroContent : Option HeroContent
  deriving DecidableEq

/-- The `.navbar` element: only its inline background is touched. -/
structure Navbar where
  background : Option Background
  deriving DecidableEq

/-- The callbacks handed to `window.requestAnimationFrame`. -/
inductive Callback where
  | updateScrollAnimations
  | updateParallax
  deriving DecidableEq

/-- The host state the script reads and writes: scroll offset, viewport size and the
elements it selects (`.subject-card`, `.section-title, .section-text`, `.hero`, `.navbar`). -/
structure Document where
  scrollY : ℚ
  innerWidth : ℚ
  innerHeight : ℚ
  subjectCards : List Card
  sections : List Section
  hero : Option Hero
  navbar : Option Navbar
  deriving DecidableEq

/-- The document together with the closure variables of `ScrollAnimator`.

* `scrollTicking` is `ticking` of `setupScrollAnimations` (line 42);
* `parallaxTicking` and `lastScrollY` are the variables of `setupParallax` (lines 96-97);
* `frameQueue` is the browser list of pending animation-frame callbacks;
* `scrollRuns` and `parallaxRuns` are ghost counters: how many times the body of
  `updateScrollAnimations`, respectively `updateParallax`, has been executed. -/
structure Page extends Document where
  scrollTicking : Bool
  parallaxTicking : Bool
  lastScrollY : ℚ
  frameQueue : List Callback
  scrollRuns : Nat
  parallaxRuns : Nat
  deriving DecidableEq

/-! ## Continuous scroll transform (`setupScrollAnimations`, lines 41-93) -/

/-- Line 51: `cardCenter = cardTop + rect.height / 2`. -/
def cardCenter (rect : Rect) : ℚ := rect.top + rect.height / 2

/-- Line 52: `viewportCenter = windowHeight / 2`. -/
def viewportCenter (windowHeight : ℚ) : ℚ := windowHeight / 2

/-- Line 55: `distance = Math.abs(cardCenter - viewportCenter)`. -/
def distance (rect : Rect) (windowHeight : ℚ) : ℚ :=
  |cardCenter rect - viewportCenter windowHeight|

/-- Lines 56-59: `normalizedDistance = Math.min(distance / maxDistance, 1)` with
`maxDistance = windowHeight`. -/
def normalizedDistance (rect : Rect) (windowHeight : ℚ) : ℚ :=
  min (distance rect windowHeight / windowHeight) 1

/-- Line 62: `scale = 1 - normalizedDistance * 0.1`. -/
def scale (rect : Rect) (windowHeight : ℚ) : ℚ :=
  1 - normalizedDistance rect windowHeight * (1 / 10)

/-- Line 63: `opacity = Math.max(0.3, 1 - normalizedDistance * 0.7)`. -/
def opacity (rect : Rect) (windowHeight : ℚ) : ℚ :=
  max (3 / 10) (1 - normalizedDistance rect windowHeight * (7 / 10))

/-- Line 66: the guard `cardTop < windowHeight && cardTop > -rect.height`. -/
def inWindow (rect : Rect) (windowHeight : ℚ) : Bool :=
  decide (rect.top < windowHeight) && decide (rect.top > -rect.height)

/-- Line 67: `translateY = (cardCenter - viewportCenter) * 0.3`. -/
def translateY (rect : Rect) (windowHeight : ℚ) : ℚ :=
  (cardCenter rect - viewportCenter windowHeight) * (3 / 10)

/-- Line 75: `parallaxOffset = (cardCenter - viewportCenter) * 0.2`. -/
def parallaxOffset (rect : Rect) (windowHeight : ℚ) : ℚ :=
  (cardCenter rect - viewportCenter windowHeight) * (2 / 10)

/-- Lines 49-78: the body of the `forEach` of `updateScrollAnimations` for one card. -/
def updateCard (windowHeight : ℚ) (card : Card) : Card :=
  if inWindow card.rect windowHeight then
    { card with
      transform := some (.translateYScale (translateY card.rect windowHeight)
        (scale card.rect windowHeight))
      opacity := some (opacity card.rect windowHeight)
      imageContainer := card.imageContainer.map fun _ =>
        { transform := some (.translateYScale (parallaxOffset card.rect windowHeight)
            (scale card.rect windowHeight)) } }
  else card

/-- Lines 44-82: `updateScrollAnimations`; every card is visited, then `ticking = false`. -/
def updateScrollAnimations (p : Page) : Page :=
  { p with
    subjectCards := p.subjectCards.map (updateCard p.innerHeight)
    scrollTicking := false
    scrollRuns := p.scrollRuns + 1 }

/-! ## Hero parallax and navbar (`setupParallax`, lines 95-138) -/

/-- Line 105: `scrollProgress = Math.min(scrollY / heroHeight, 1)`. -/
def scrollProgress (scrollY heroHeight : ℚ) : ℚ := min (scrollY / heroHeight) 1

/-- Line 108: the value assigned to `hero.style.opacity`, `1 - scrollProgress * 0.5`. -/
def heroOpacity (scrollY heroHeight : ℚ) : ℚ :=
  1 - scrollProgress scrollY heroHeight * (1 / 2)

/-- Line 113: `translateY = scrollY * 0.5`. -/
def heroTranslateY (scrollY : ℚ) : ℚ := scrollY * (1 / 2)

/-- Lines 121-125: the navbar background chosen for a scroll offset. -/
def navbarBackground (scrollY : ℚ) : Background :=
  if scrollY > 50 then .dark else .light

/-- Lines 103-116: the `if (hero)` block of `updateParallax`. -/
def updateHero (scrollY : ℚ) (hero : Hero) : Hero :=
  { hero with
    opacity := some (heroOpacity scrollY hero.offsetHeight)
    heroContent := hero.heroContent.map fun _ =>
      { transform := some (.translateY (heroTranslateY scrollY)) } }

/-- Lines 119-126: the `if (navbar)` block of `updateParallax`. -/
def updateNavbar (scrollY : ℚ) (_navbar : Navbar) : Navbar :=
  { background := some (navbarBackground scrollY) }

/-- Lines 99-130: `updateParallax`. -/
def updateParallax (p : Page) : Page :=
  { p with
    hero := p.hero.map (updateHero p.scrollY)
    navbar := p.navbar.map (updateNavbar p.scrollY)
    lastScrollY := p.scrollY
    parallaxTicking := false
    parallaxRuns := p.parallaxRuns + 1 }

/-! ## Frame coalescing: scroll listeners and the animation frame -/

/-- The call `window.requestAnimationFrame(cb)`: the callback joins the pending list. -/
def requestAnimationFrame (cb : Callback) (p : Page) : Page :=
  { p with frameQueue := p.frameQueue ++ [cb] }

/-- Lines 84-89: the scroll listener registered by `setupScrollAnimations`. -/
def onScrollAnimations (p : Page) : Page :=
  if !p.scrollTicking then
    { requestAnimationFrame .updateScrollAnimations p with scrollTicking := true }
  else p

/-- Lines 132-137: the scroll listener registered by `setupParallax`. -/
def onScrollParallax (p : Page) : Page :=
  if !p.parallaxTicking then
    { requestAnimationFrame .updateParallax p with parallaxTicking := true }
  else p

/-- One `scroll` event: both listeners run, in registration order. -/
def scrollEvent (p : Page) : Page := onScrollParallax (onScrollAnimations p)

/-- The function a queued callback stands for. -/
def runCallback (p : Page) : Callback → Page
  | .updateScrollAnimations => updateScrollAnimations p
  | .updateParallax => updateParallax p

/-- One rendered frame: the pending list is taken and emptied, and its callbacks run in order. -/
def animationFrame (p : Page) : Page :=
  p.frameQueue.foldl runCallback { p with frameQueue := [] }

/-! ## Visibility revealer (lines 16-39 and 140-163) -/

/-- An element watched by the observer: the `i`-th card or the `i`-th section element. -/
inductive Target where
  | card (i : Nat)
  | sectionElem (i : Nat)
  deriving DecidableEq

/-- An `IntersectionObserverEntry`: its `target` and `isIntersecting`. -/
structure Entry where
  target : Target
  isIntersecting : Bool
  deriving DecidableEq

/-- Apply `f` to the element at position `i`, if there is one. -/
def modifyAt {α : Type} (f : α → α) : Nat → List α → List α
  | _, [] => []
  | 0, a :: l => f a :: l
  | i + 1, a :: l => a :: modifyAt f i l

/-- The call `target.classList.add('active')`. -/
def addActive (t : Target) (p : Page) : Page :=
  match t with
  | .card i => { p with subjectCards := modifyAt (fun c => { c with active := true }) i p.subjectCards }
  | .sectionElem i => { p with sections := modifyAt (fun s => { s with active := true }) i p.sections }

/-- Does the element carry the `active` class? (`false` for an index with no element). -/
def isActive (t : Target) (p : Page) : Bool :=
  match t with
  | .card i => (p.subjectCards.get? i).any (·.active)
  | .sectionElem i => (p.sections.get? i).any (·.active)

/-- Lines 23-27: the observer callback, `entries.forEach(...)`. -/
def observerCallback (entries : List Entry) (p : Page) : Page :=
  entries.foldl (fun q entry => if entry.isIntersecting then addActive entry.target q else q) p

/-- Lines 145 and 152: `rect.top < window.innerHeight && rect.bottom > 0`. -/
def inViewport (rect : Rect) (innerHeight : ℚ) : Bool :=
  decide (rect.top < innerHeight) && decide (rect.bottom > 0)

/-- Lines 142-156: `checkVisibility`. -/
def checkVisibility (p : Page) : Page :=
  { p with
    subjectCards := p.subjectCards.map fun card =>
      if inViewport card.rect p.innerHeight then { card with active := true } else card
    sections := p.sections.map fun s =>
      if inViewport s.rect p.innerHeight then { s with active := true } else s }

/-! ## Pointer parallax (`setupMouseParallax`, lines 184-207) -/

/-- Line 192: `xPercent = (clientX / innerWidth - 0.5) * 2`. -/
def xPercent (clientX innerWidth : ℚ) : ℚ := (clientX / innerWidth - 1 / 2) * 2

/-- Line 193: `yPercent = (clientY / innerHeight - 0.5) * 2`. -/
def yPercent (clientY innerHeight : ℚ) : ℚ := (clientY / innerHeight - 1 / 2) * 2

/-- Line 197: the transform written by the `mousemove` handler. -/
def mouseTransform (clientX clientY innerWidth innerHeight : ℚ) : Transform :=
  .translatePx (xPercent clientX innerWidth * 20) (yPercent clientY innerHeight * 20)

/-- Lines 188-199: the `mousemove` handler; it exists only when `.hero` does (line 186). -/
def mouseMove (clientX clientY : ℚ) (p : Page) : Page :=
  { p with
    hero := p.hero.map fun hero =>
      { hero with
        heroContent := hero.heroContent.map fun _ =>
          { transform := some (mouseTransform clientX clientY p.innerWidth p.innerHeight) } } }

/-- Lines 201-206: the `mouseleave` handler; it exists only when `.hero` does (line 186). -/
def mouseLeave (p : Page) : Page :=
  { p with
    hero := p.hero.map fun hero =>
      { hero with
        heroContent := hero.heroContent.map fun _ => { transform := some .translateZero } } }

/-- The transform of `.hero-content`, when `.hero` and `.hero-content` both exist and the
transform has been written. -/
def heroContentTransform (p : Page) : Option Transform :=
  p.hero.bind fun hero => hero.heroContent.bind fun content => content.transform

/-! ## The page as a transition system -/

/-- Give the elements of a list new bounding rectangles, position by position; elements
beyond the end of `rects` keep theirs. -/
def setRects {α : Type} (set : α → Rect → α) : List α → List Rect → List α
  | [], _ => []
  | a :: l, [] => a :: l
  | a :: l, r :: rs => set a r :: setRects set l rs

/-- The host scrolls or resizes: scroll offset, viewport size and bounding rectangles change;
no script code runs. -/
def layout (scrollY innerWidth innerHeight : ℚ) (cardRects sectionRects : List Rect)
    (p : Page) : Page :=
  { p with
    scrollY := scrollY
    innerWidth := innerWidth
    innerHeight := innerHeight
    subjectCards := setRects (fun c r => { c with rect := r }) p.subjectCards cardRects
    sections := setRects (fun s r => { s with rect := r }) p.sections sectionRects }

/-- Everything that can happen to the page after start-up. -/
inductive Event where
  /-- The host scrolls or resizes the viewport. -/
  | layout (scrollY innerWidth innerHeight : ℚ) (cardRects sectionRects : List Rect)
  /-- A `scroll` event is dispatched (by the host, or by the resize timer of lines 221-228). -/
  | scroll
  /-- A frame is rendered and the pending animation-frame callbacks run. -/
  | animationFrame
  /-- The observer reports a batch of entries. -/
  | intersection (entries : List Entry)
  /-- The timer of line 162 fires. -/
  | checkVisibility
  /-- The pointer moves over the hero. -/
  | mouseMove (clientX clientY : ℚ)
  /-- The pointer leaves the hero. -/
  | mouseLeave

/-- The effect of one event. -/
def step (p : Page) : Event → Page
  | .layout y w h cs ss => layout y w h cs ss p
  | .scroll => scrollEvent p
  | .animationFrame => animationFrame p
  | .intersection entries => observerCallback entries p
  | .checkVisibility => checkVisibility p
  | .mouseMove x y => mouseMove x y p
  | .mouseLeave => mouseLeave p

/-- The effect of a sequence of events. -/
def run (events : List Event) (p : Page) : Page := events.foldl step p

/-- Is the event a rendered frame? -/
def Event.isFrame : Event → Bool
  | .animationFrame => true
  | _ => false

/-- The coalescing invariant: each callback is in the pending list exactly once while the
flag of its effect is `true`, and not at all while it is `false`. -/
def Coalesced (p : Page) : Prop :=
  p.frameQueue.count .updateScrollAnimations = (if p.scrollTicking then 1 else 0)
    ∧ p.frameQueue.count .updateParallax = (if p.parallaxTicking then 1 else 0)

/-- Lines 9-14 and 210-214: `new ScrollAnimator()` on a freshly loaded document. The
closure variables get their initial values, `updateScrollAnimations` runs once (line 92)
and `checkVisibility` runs once (line 159); no frame callback is pending. -/
def init (d : Document) : Page :=
  checkVisibility (updateScrollAnimations
    { d with
      scrollTicking := false
      parallaxTicking := false
      lastScrollY := 0
      frameQueue := []
      scrollRuns := 0
      parallaxRuns := 0 })

/-! ## Binary64 arithmetic

JavaScript numbers are IEEE 754 binary64 values. A finite value is kept as the rational it
denotes; `+`, `-`, `*` and `/` return the exact result rounded to the nearest representable
value, ties to even, with gradual underflow and overflow to infinity. The sign of zero is not
tracked: in lines 51-63 it could only matter when dividing by a negative zero, and a viewport
height is never a negative zero. -/

/-- A binary64 value: a finite number, an infinity with its sign, or `NaN`. -/
inductive Double where
  | finite (x : ℚ)
  | inf (negative : Bool)
  | nan
  deriving DecidableEq

/-- Round a rational to the nearest integer, ties to the even one. -/
def roundHalfEven (q : ℚ) : ℤ :=
  if q - ⌊q⌋ < 1 / 2 then ⌊q⌋
  else if 1 / 2 < q - ⌊q⌋ then ⌊q⌋ + 1
  else if ⌊q⌋ % 2 = 0 then ⌊q⌋
  else ⌊q⌋ + 1

/-- The exponent of the unit in the last place of the binade of `x`: a significand has 53
bits, and below `2^-1022` the spacing stays `2^-1074` (subnormal numbers). -/
def quantum (x : ℚ) : ℤ := max (Int.log 2 |x|) (-1022) - 52

/-- Round an exact result to binary64: the nearest multiple of the unit in the last place,
ties to even; a rounded magnitude of `2^1024` or more overflows to the infinity of that sign. -/
def round64 (x : ℚ) : Double :=
  if x = 0 then .finite 0
  else if 2 ^ 1024 ≤ |(roundHalfEven (x / 2 ^ quantum x) : ℚ) * 2 ^ quantum x| then
    .inf (decide (x < 0))
  else .finite (roundHalfEven (x / 2 ^ quantum x) * 2 ^ quantum x)

/-- Unary minus. -/
def Double.neg : Double → Double
  | .finite x => .finite (-x)
  | .inf s => .inf (!s)
  | .nan => .nan

/-- The operator `+`. -/
def Double.add : Double → Double → Double
  | .finite a, .finite b => round64 (a + b)
  | .finite _, .inf s => .inf s
  | .inf s, .finite _ => .inf s
  | .inf s, .inf t => if s = t then .inf s else .nan
  | _, _ => .nan

/-- The operator `-`. -/
def Double.sub (a b : Double) : Double := a.add b.neg

/-- The operator `*`. -/
def Double.mul : Double → Double → Double
  | .finite a, .finite b => round64 (a * b)
  | .finite a, .inf s => if a = 0 then .nan else .inf (xor s (decide (a < 0)))
  | .inf s, .finite b => if b = 0 then .nan else .inf (xor s (decide (b < 0)))
  | .inf s, .inf t => .inf (xor s t)
  | _, _ => .nan

/-- The operator `/`; a zero divisor is a positive zero. -/
def Double.div : Double → Double → Double
  | .finite a, .finite b =>
    if b = 0 then (if a = 0 then .nan else .inf (decide (a < 0))) else round64 (a / b)
  | .finite _, .inf _ => .finite 0
  | .inf s, .finite b => .inf (xor s (decide (b < 0)))
  | _, _ => .nan

/-- The function `Math.abs`. -/
def Double.abs : Double → Double
  | .finite x => .finite |x|
  | .inf _ => .inf false
  | .nan => .nan

/-- The comparison `a <= b`; every comparison with `NaN` is false. -/
def Double.le : Double → Double → Bool
  | .finite a, .finite b => decide (a ≤ b)
  | .finite _, .inf s => !s
  | .inf s, .finite _ => s
  | .inf s, .inf t => s || !t
  | _, _ => false

/-- The function `Math.min`; `NaN` if either argument is. -/
def Double.min (a b : Double) : Double :=
  match a, b with
  | .nan, _ => .nan
  | _, .nan => .nan
  | a, b => if a.le b then a else b

/-- The function `Math.max`; `NaN` if either argument is. -/
def Double.max (a b : Double) : Double :=
  match a, b with
  | .nan, _ => .nan
  | _, .nan => .nan
  | a, b => if a.le b then b else a

/-- A decimal literal of the source, such as `0.7`: the binary64 value nearest to it. -/
def Double.lit (q : ℚ) : Double := round64 q

/-! ## Lines 51-63 in binary64 -/

namespace Float64

/-- Line 51: `cardCenter = cardTop + rect.height / 2`. -/
def cardCenter (top height : Double) : Double := top.add (height.div (.lit 2))

/-- Line 52: `viewportCenter = windowHeight / 2`. -/
def viewportCenter (windowHeight : Double) : Double := windowHeight.div (.lit 2)

/-- Line 55: `distance = Math.abs(cardCenter - viewportCenter)`. -/
def distance (top height windowHeight : Double) : Double :=
  ((cardCenter top height).sub (viewportCenter windowHeight)).abs

/-- Lines 56-59: `normalizedDistance = Math.min(distance / maxDistance, 1)` with
`maxDistance = windowHeight`. -/
def normalizedDistance (top height windowHeight : Double) : Double :=
  ((distance top height windowHeight).div windowHeight).min (.lit 1)

/-- Line 62: `scale = 1 - normalizedDistance * 0.1`. -/
def scale (top height windowHeight : Double) : Double :=
  (Double.lit 1).sub ((normalizedDistance top height windowHeight).mul (.lit (1 / 10)))

/-- Line 63: `opacity = Math.max(0.3, 1 - normalizedDistance * 0.7)`. -/
def opacity (top height windowHeight : Double) : Double :=
  (Double.lit (3 / 10)).max
    ((Double.lit 1).sub ((normalizedDistance top height windowHeight).mul (.lit (7 / 10))))

end Float64

/-! ## Concrete documents used as test inputs -/

/-- A card of height 200 whose top edge is at `top`, never styled, with an image container. -/
def sampleCard (top : ℚ) : Card :=
  { rect := { top := top, height := 200 }
    active := false
    transform := none
    opacity := none
    imageContainer := some { transform := none } }

/-- A 1000 by 800 viewport at scroll offset `scrollY` with two cards (one in view, one far
below), one section element, a hero of height 600 with content, and a navbar. -/
def sampleDocument (scrollY : ℚ) : Document :=
  { scrollY := scrollY
    innerWidth := 1000
    innerHeight := 800
    subjectCards := [sampleCard 300, sampleCard 2000]
    sections := [{ rect := { top := 100, height := 50 }, active := false }]
    hero := some { offsetHeight := 600, opacity := none, heroContent := some { transform := none } }
    navbar := some { background := none } }

/-- The sample document right after `new ScrollAnimator()`. -/
def samplePage (scrollY : ℚ) : Page := init (sampleDocument scrollY)

/-! ## Lemmas on the scroll transform -/

theorem normalizedDistance_nonneg (rect : Rect) (windowHeight : ℚ) (h : 0 < windowHeight) :
    0 ≤ normalizedDistance rect windowHeight := by
  unfold normalizedDistance distance
  exact le_min (div_nonneg (abs_nonneg _) h.le) zero_le_one

theorem normalizedDistance_le_one (rect : Rect) (windowHeight : ℚ) :
    normalizedDistance rect windowHeight ≤ 1 := by
  unfold normalizedDistance
  exact min_le_right _ _

theorem normalizedDistance_of_far (rect : Rect) (windowHeight : ℚ) (h : 0 < windowHeight)
    (hfar : windowHeight ≤ distance rect windowHeight) :
    normalizedDistance rect windowHeight = 1 := by
  unfold normalizedDistance
  exact min_eq_right ((one_le_div h).mpr hfar)

theorem normalizedDistance_of_centered (rect : Rect) (windowHeight : ℚ)
    (hc : cardCenter rect = viewportCenter windowHeight) :
    normalizedDistance rect windowHeight = 0 := by
  unfold normalizedDistance distance
  rw [hc, sub_self, abs_zero, zero_div]
  exact min_eq_left zero_le_one

theorem updateCard_of_inWindow (windowHeight : ℚ) (card : Card)
    (h : inWindow card.rect windowHeight = true) :
    updateCard windowHeight card =
      { card with
        transform := some (.translateYScale (translateY card.rect windowHeight)
          (scale card.rect windowHeight))
        opacity := some (opacity card.rect windowHeight)
        imageContainer := card.imageContainer.map fun _ =>
          { transform := some (.translateYScale (parallaxOffset card.rect windowHeight)
              (scale card.rect windowHeight)) } } := by
  unfold updateCard
  rw [if_pos h]

theorem updateCard_of_not_inWindow (windowHeight : ℚ) (card : Card)
    (h : inWindow card.rect windowHeight = false) :
    updateCard windowHeight card = card := by
  unfold updateCard
  rw [h]
  rfl

theorem inWindow_iff (rect : Rect) (windowHeight : ℚ) :
    inWindow rect windowHeight = true ↔ rect.top < windowHeight ∧ rect.top > -rect.height := by
  simp [inWindow]

/-! ## Claims on the scroll transform -/

/-- C1: for every card rectangle and every positive viewport height, the `opacity` computed by
`updateScrollAnimations` lies in [0.3, 1.0] and the `scale` lies in [0.9, 1.0], where
`normalizedDistance = min(|cardCenter - viewportCenter| / windowHeight, 1)`; these are the
values written to a card inside the window. -/
theorem scroll_opacity_scale_bounds (card : Card) (windowHeight : ℚ) (h : 0 < windowHeight) :
    normalizedDistance card.rect windowHeight
        = min (|cardCenter card.rect - viewportCenter windowHeight| / windowHeight) 1
      ∧ 3 / 10 ≤ opacity card.rect windowHeight ∧ opacity card.rect windowHeight ≤ 1
      ∧ 9 / 10 ≤ scale card.rect windowHeight ∧ scale card.rect windowHeight ≤ 1
      ∧ (inWindow card.rect windowHeight = true →
          (updateCard windowHeight card).opacity = some (opacity card.rect windowHeight)
          ∧ (updateCard windowHeight card).transform
              = some (.translateYScale (translateY card.rect windowHeight)
                  (scale card.rect windowHeight))) := by
  have h0 := normalizedDistance_nonneg card.rect windowHeight h
  have h1 := normalizedDistance_le_one card.rect windowHeight
  refine ⟨rfl, ?_, ?_, ?_, ?_, ?_⟩
  · exact le_max_left _ _
  · unfold opacity
    exact max_le (by norm_num) (by linarith)
  · unfold scale
    linarith
  · unfold scale
    linarith
  · intro hw
    rw [updateCard_of_inWindow windowHeight card hw]
    exact ⟨rfl, rfl⟩

/-- Witness of C1: the sample card at top 300 in a viewport of height 800. -/
theorem scroll_opacity_scale_bounds_witness :
    (0 : ℚ) < 800
      ∧ 3 / 10 ≤ opacity (sampleCard 300).rect 800 ∧ opacity (sampleCard 300).rect 800 ≤ 1
      ∧ 9 / 10 ≤ scale (sampleCard 300).rect 800 ∧ scale (sampleCard 300).rect 800 ≤ 1 :=
  ⟨by norm_num,
    (scroll_opacity_scale_bounds (sampleCard 300) 800 (by norm_num)).2.1,
    (scroll_opacity_scale_bounds (sampleCard 300) 800 (by norm_num)).2.2.1,
    (scroll_opacity_scale_bounds (sampleCard 300) 800 (by norm_num)).2.2.2.1,
    (scroll_opacity_scale_bounds (sampleCard 300) 800 (by norm_num)).2.2.2.2.1⟩

/-- The clamped case in exact arithmetic: with `distance >= windowHeight > 0` the formulas of
lines 59-63 give `normalizedDistance = 1`, `scale = 9/10` and `opacity = 3/10`. -/
theorem clamped_case_exact (rect : Rect) (windowHeight : ℚ) (h : 0 < windowHeight)
    (hfar : windowHeight ≤ distance rect windowHeight) :
    normalizedDistance rect windowHeight = 1
      ∧ scale rect windowHeight = 9 / 10
      ∧ opacity rect windowHeight = 3 / 10 := by
  have hn := normalizedDistance_of_far rect windowHeight h hfar
  refine ⟨hn, ?_, ?_⟩
  · unfold scale
    rw [hn]
    norm_num
  · unfold opacity
    rw [hn]
    norm_num

/-- C3: for every card (its rectangle has a non-negative height, as every bounding client
rectangle does) and positive viewport height with `cardCenter == viewportCenter`, the computed
`translateY` is 0, `scale` is 1.0 and `opacity` is 1.0, the card is inside the window of
line 66, and `updateScrollAnimations` writes exactly these values to it. -/
theorem scroll_zero_distance_case (card : Card) (windowHeight : ℚ) (h : 0 < windowHeight)
    (hheight : 0 ≤ card.rect.height)
    (hc : cardCenter card.rect = viewportCenter windowHeight) :
    translateY card.rect windowHeight = 0
      ∧ scale card.rect windowHeight = 1
      ∧ opacity card.rect windowHeight = 1
      ∧ inWindow card.rect windowHeight = true
      ∧ (updateCard windowHeight card).transform = some (.translateYScale 0 1)
      ∧ (updateCard windowHeight card).opacity = some 1 := by
  have hn := normalizedDistance_of_centered card.rect windowHeight hc
  have ht : translateY card.rect windowHeight = 0 := by
    unfold translateY
    rw [hc, sub_self, zero_mul]
  have hs : scale card.rect windowHeight = 1 := by
    unfold scale
    rw [hn]
    norm_num
  have ho : opacity card.rect windowHeight = 1 := by
    unfold opacity
    rw [hn]
    norm_num
  have hw : inWindow card.rect windowHeight = true := by
    rw [inWindow_iff]
    unfold cardCenter viewportCenter at hc
    constructor <;> linarith
  refine ⟨ht, hs, ho, hw, ?_, ?_⟩
  · rw [updateCard_of_inWindow windowHeight card hw, ht, hs]
  · rw [updateCard_of_inWindow windowHeight card hw, ho]

/-- Witness of C3: the sample card at top 300 (height 200, centre 400) in a viewport of
height 800 (centre 400). -/
theorem scroll_zero_distance_case_witness :
    (0 : ℚ) < 800 ∧ 0 ≤ (sampleCard 300).rect.height
      ∧ cardCenter (sampleCard 300).rect = viewportCenter 800
      ∧ translateY (sampleCard 300).rect 800 = 0
      ∧ scale (sampleCard 300).rect 800 = 1
      ∧ opacity (sampleCard 300).rect 800 = 1
      ∧ inWindow (sampleCard 300).rect 800 = true
      ∧ (updateCard 800 (sampleCard 300)).transform = some (.translateYScale 0 1)
      ∧ (updateCard 800 (sampleCard 300)).opacity = some 1 :=
  ⟨by norm_num, by norm_num [sampleCard], by norm_num [cardCenter, viewportCenter, sampleCard],
    scroll_zero_distance_case (sampleCard 300) 800 (by norm_num) (by norm_num [sampleCard])
      (by norm_num [cardCenter, viewportCenter, sampleCard])⟩

/-- C10: in `updateScrollAnimations` a card is written exactly when it lies in the extended
window `rect.top < windowHeight` and `rect.top > -rect.height` (equivalently: top edge above
the viewport bottom and bottom edge `rect.top + rect.height > 0`). A card in the window gets
the computed transform and opacity, and its image container (if any) the computed transform;
a card outside the window is left exactly as it was, image container included. -/
theorem scroll_style_written_iff_in_window (p : Page) (i : Nat) (card : Card)
    (hcard : p.subjectCards.get? i = some card) :
    (inWindow card.rect p.innerHeight = true
        ↔ card.rect.top < p.innerHeight ∧ card.rect.top + card.rect.height > 0)
      ∧ (inWindow card.rect p.innerHeight = true
        ↔ card.rect.top < p.innerHeight ∧ card.rect.bottom > 0)
      ∧ (inWindow card.rect p.innerHeight = true →
          (updateScrollAnimations p).subjectCards.get? i = some
            { card with
              transform := some (.translateYScale (translateY card.rect p.innerHeight)
                (scale card.rect p.innerHeight))
              opacity := some (opacity card.rect p.innerHeight)
              imageContainer := card.imageContainer.map fun _ =>
                { transform := some (.translateYScale (parallaxOffset card.rect p.innerHeight)
                    (scale card.rect p.innerHeight)) } })
      ∧ (inWindow card.rect p.innerHeight = false →
          (updateScrollAnimations p).subjectCards.get? i = some card) := by
  have hget : (updateScrollAnimations p).subjectCards.get? i
      = some (updateCard p.innerHeight card) := by
    simp only [updateScrollAnimations, List.get?_eq_getElem?, List.getElem?_map] at hcard ⊢
    rw [hcard]
    rfl
  refine ⟨?_, ?_, ?_, ?_⟩
  · rw [inWindow_iff]
    constructor
    · rintro ⟨h1, h2⟩
      exact ⟨h1, by linarith⟩
    · rintro ⟨h1, h2⟩
      exact ⟨h1, by linarith⟩
  · rw [inWindow_iff]
    unfold Rect.bottom
    constructor
    · rintro ⟨h1, h2⟩
      exact ⟨h1, by linarith⟩
    · rintro ⟨h1, h2⟩
      exact ⟨h1, by linarith⟩
  · intro hw
    rw [hget, updateCard_of_inWindow p.innerHeight card hw]
  · intro hw
    rw [hget, updateCard_of_not_inWindow p.innerHeight card hw]

/-- Witness of C10: the second sample card (top 2000) is outside the window of the 800 high
viewport and keeps its style. -/
theorem scroll_style_written_iff_in_window_witness :
    (samplePage 0).subjectCards.get? 1 = some (sampleCard 2000)
      ∧ inWindow (sampleCard 2000).rect (samplePage 0).innerHeight = false
      ∧ (updateScrollAnimations (samplePage 0)).subjectCards.get? 1 = some (sampleCard 2000) :=
  have hc : (samplePage 0).subjectCards.get? 1 = some (sampleCard 2000) := by
    norm_num [samplePage, init, sampleDocument, checkVisibility, updateScrollAnimations,
      updateCard, inWindow, inViewport, sampleCard, Rect.bottom]
  have hw : inWindow (sampleCard 2000).rect (samplePage 0).innerHeight = false := by
    norm_num [samplePage, init, sampleDocument, checkVisibility, updateScrollAnimations,
      inWindow, sampleCard]
  ⟨hc, hw, (scroll_style_written_iff_in_window (samplePage 0) 1 (sampleCard 2000) hc).2.2.2 hw⟩

/-! ## Claims on the hero parallax and the navbar -/

/-- C4, as amended: whenever a navbar is present, `updateParallax` sets its background to one
of exactly two fixed values, `rgba(0, 0, 0, 0.95)` when `scrollY > 50` and
`rgba(0, 0, 0, 0.8)` when `scrollY <= 50`; so 49 and 50 both give the light value and every
offset above 50 (51, or 50.5) gives the dark one. -/
theorem navbar_background_threshold (p : Page) (navbar : Navbar) (hnav : p.navbar = some navbar) :
    (updateParallax p).navbar = some { background := some (navbarBackground p.scrollY) }
      ∧ (navbarBackground p.scrollY = .dark ∨ navbarBackground p.scrollY = .light)
      ∧ (navbarBackground p.scrollY = .dark ↔ 50 < p.scrollY)
      ∧ (navbarBackground p.scrollY = .light ↔ p.scrollY ≤ 50)
      ∧ Background.dark.css = "rgba(0, 0, 0, 0.95)"
      ∧ Background.light.css = "rgba(0, 0, 0, 0.8)"
      ∧ navbarBackground 49 = .light
      ∧ navbarBackground 50 = .light
      ∧ navbarBackground (101 / 2) = .dark
      ∧ navbarBackground 51 = .dark := by
  refine ⟨?_, ?_, ?_, ?_, rfl, rfl, ?_, ?_, ?_, ?_⟩
  · simp only [updateParallax, hnav, Option.map_some', updateNavbar]
  · unfold navbarBackground
    by_cases h : p.scrollY > 50
    · left
      rw [if_pos h]
    · right
      rw [if_neg h]
  · unfold navbarBackground
    by_cases h : p.scrollY > 50
    · simp [h]
    · simp [h]
  · unfold navbarBackground
    by_cases h : p.scrollY > 50
    · simp [h]
    · simp only [if_neg h, true_iff]
      exact not_lt.mp h
  · norm_num [navbarBackground]
  · norm_num [navbarBackground]
  · norm_num [navbarBackground]
  · norm_num [navbarBackground]

/-- Witness of C4 as amended: the sample page at scroll offset 50 has a navbar. -/
theorem navbar_background_threshold_witness :
    (samplePage 50).navbar = some { background := none }
      ∧ (updateParallax (samplePage 50)).navbar
          = some { background := some (navbarBackground (samplePage 50).scrollY) } :=
  have hn : (samplePage 50).navbar = some { background := none } := by
    simp [samplePage, init, sampleDocument, checkVisibility, updateScrollAnimations]
  ⟨hn, (navbar_background_threshold (samplePage 50) { background := none } hn).1⟩

/-- Counterexample to C4 as stated: at `scrollY = 50` with a navbar present, `updateParallax`
sets the light background `rgba(0, 0, 0, 0.8)`, not the dark one. -/
theorem navbar_at_50_is_light_not_dark :
    (updateParallax (samplePage 50)).navbar = some { background := some .light }
      ∧ (updateParallax (samplePage 50)).navbar ≠ some { background := some .dark }
      ∧ (samplePage 50).scrollY = 50 := by
  have h : (updateParallax (samplePage 50)).navbar = some { background := some .light } := by
    norm_num [samplePage, init, sampleDocument, checkVisibility, updateScrollAnimations,
      updateParallax, updateNavbar, navbarBackground]
  refine ⟨h, ?_, ?_⟩
  · rw [h]
    decide
  · simp [samplePage, init, sampleDocument, checkVisibility, updateScrollAnimations]

/-- C7: for every `scrollY` and every hero of positive height, `updateParallax` sets the hero
opacity to `1 - min(scrollY / heroHeight, 1) * 0.5`, which is never below 0.5 and at most 1
when `scrollY >= 0`, and sets the transform of the hero content (if any) to
`translateY(scrollY * 0.5)`. -/
theorem hero_opacity_and_translate (p : Page) (hero : Hero) (hhero : p.hero = some hero)
    (hpos : 0 < hero.offsetHeight) :
    (updateParallax p).hero = some
        { offsetHeight := hero.offsetHeight
          opacity := some (1 - min (p.scrollY / hero.offsetHeight) 1 * (1 / 2))
          heroContent := hero.heroContent.map fun _ =>
            { transform := some (.translateY (p.scrollY * (1 / 2))) } }
      ∧ (1 : ℚ) / 2 ≤ 1 - min (p.scrollY / hero.offsetHeight) 1 * (1 / 2)
      ∧ (0 ≤ p.scrollY → 1 - min (p.scrollY / hero.offsetHeight) 1 * (1 / 2) ≤ 1) := by
  refine ⟨?_, ?_, ?_⟩
  · simp only [updateParallax, hhero, Option.map_some', updateHero, heroOpacity, scrollProgress,
      heroTranslateY]
  · have := min_le_right (p.scrollY / hero.offsetHeight) 1
    linarith
  · intro hy
    have : 0 ≤ min (p.scrollY / hero.offsetHeight) 1 :=
      le_min (div_nonneg hy hpos.le) zero_le_one
    linarith

/-- Witness of C7: the sample page at scroll offset 300 (hero height 600): opacity 3/4. -/
theorem hero_opacity_and_translate_witness :
    (samplePage 300).hero
        = some { offsetHeight := 600, opacity := none, heroContent := some { transform := none } }
      ∧ (0 : ℚ) < 600
      ∧ (updateParallax (samplePage 300)).hero = some
          { offsetHeight := 600
            opacity := some (1 - min ((samplePage 300).scrollY / 600) 1 * (1 / 2))
            heroContent := some { transform := some (.translateY ((samplePage 300).scrollY * (1 / 2))) } } :=
  have hh : (samplePage 300).hero
      = some { offsetHeight := 600, opacity := none, heroContent := some { transform := none } } := by
    simp [samplePage, init, sampleDocument, checkVisibility, updateScrollAnimations]
  ⟨hh, by norm_num,
    (hero_opacity_and_translate (samplePage 300)
      { offsetHeight := 600, opacity := none, heroContent := some { transform := none } } hh
      (by norm_num)).1⟩

/-! ## Claims on the pointer parallax -/

/-- C8: for every pointer position inside a viewport of positive width and height, the
`mousemove` handler computes `x = (clientX/innerWidth - 0.5) * 2` and
`y = (clientY/innerHeight - 0.5) * 2`, both in [-1, 1], and sets the hero content transform to
`translate(x*20 px, y*20 px)`; each component lies in [-20, 20], and at the viewport centre
the translation is (0, 0). -/
theorem mouse_parallax_bounds (p : Page) (hero : Hero) (content : HeroContent)
    (hhero : p.hero = some hero) (hcontent : hero.heroContent = some content)
    (clientX clientY : ℚ) (hw : 0 < p.innerWidth) (hh : 0 < p.innerHeight)
    (hx0 : 0 ≤ clientX) (hx1 : clientX ≤ p.innerWidth)
    (hy0 : 0 ≤ clientY) (hy1 : clientY ≤ p.innerHeight) :
    xPercent clientX p.innerWidth = (clientX / p.innerWidth - 1 / 2) * 2
      ∧ yPercent clientY p.innerHeight = (clientY / p.innerHeight - 1 / 2) * 2
      ∧ -1 ≤ xPercent clientX p.innerWidth ∧ xPercent clientX p.innerWidth ≤ 1
      ∧ -1 ≤ yPercent clientY p.innerHeight ∧ yPercent clientY p.innerHeight ≤ 1
      ∧ heroContentTransform (mouseMove clientX clientY p)
          = some (.translatePx (xPercent clientX p.innerWidth * 20)
              (yPercent clientY p.innerHeight * 20))
      ∧ -20 ≤ xPercent clientX p.innerWidth * 20 ∧ xPercent clientX p.innerWidth * 20 ≤ 20
      ∧ -20 ≤ yPercent clientY p.innerHeight * 20 ∧ yPercent clientY p.innerHeight * 20 ≤ 20
      ∧ heroContentTransform (mouseMove (p.innerWidth / 2) (p.innerHeight / 2) p)
          = some (.translatePx 0 0) := by
  have hxa : 0 ≤ clientX / p.innerWidth := div_nonneg hx0 hw.le
  have hxb : clientX / p.innerWidth ≤ 1 := (div_le_one hw).mpr hx1
  have hya : 0 ≤ clientY / p.innerHeight := div_nonneg hy0 hh.le
  have hyb : clientY / p.innerHeight ≤ 1 := (div_le_one hh).mpr hy1
  have hcx : xPercent (p.innerWidth / 2) p.innerWidth = 0 := by
    unfold xPercent
    field_simp
    ring
  have hcy : yPercent (p.innerHeight / 2) p.innerHeight = 0 := by
    unfold yPercent
    field_simp
    ring
  refine ⟨rfl, rfl, ?_, ?_, ?_, ?_, ?_, ?_, ?_, ?_, ?_, ?_⟩
  · unfold xPercent
    linarith
  · unfold xPercent
    linarith
  · unfold yPercent
    linarith
  · unfold yPercent
    linarith
  · simp only [heroContentTransform, mouseMove, hhero, hcontent, Option.map_some',
      Option.some_bind, mouseTransform]
  · unfold xPercent
    linarith
  · unfold xPercent
    linarith
  · unfold yPercent
    linarith
  · unfold yPercent
    linarith
  · simp only [heroContentTransform, mouseMove, hhero, hcontent, Option.map_some',
      Option.some_bind, mouseTransform, hcx, hcy, zero_mul]

/-- Witness of C8: the pointer at (250, 800), the bottom edge, of the 1000 by 800 sample
viewport gives the translation (-10 px, 20 px). -/
theorem mouse_parallax_bounds_witness :
    (0 : ℚ) < (samplePage 0).innerWidth ∧ (0 : ℚ) < (samplePage 0).innerHeight
      ∧ (0 : ℚ) ≤ 250 ∧ (250 : ℚ) ≤ (samplePage 0).innerWidth
      ∧ (0 : ℚ) ≤ 800 ∧ (800 : ℚ) ≤ (samplePage 0).innerHeight
      ∧ heroContentTransform (mouseMove 250 800 (samplePage 0))
          = some (.translatePx (xPercent 250 (samplePage 0).innerWidth * 20)
              (yPercent 800 (samplePage 0).innerHeight * 20))
      ∧ xPercent 250 1000 * 20 = -10 ∧ yPercent 800 800 * 20 = 20 :=
  have hh : (samplePage 0).hero
      = some { offsetHeight := 600, opacity := none, heroContent := some { transform := none } } := by
    simp [samplePage, init, sampleDocument, checkVisibility, updateScrollAnimations]
  have hw : (samplePage 0).innerWidth = 1000 := by
    simp [samplePage, init, sampleDocument, checkVisibility, updateScrollAnimations]
  have hi : (samplePage 0).innerHeight = 800 := by
    simp [samplePage, init, sampleDocument, checkVisibility, updateScrollAnimations]
  ⟨by rw [hw]; norm_num, by rw [hi]; norm_num, by norm_num, by rw [hw]; norm_num, by norm_num,
    by rw [hi],
    (mouse_parallax_bounds (samplePage 0)
      { offsetHeight := 600, opacity := none, heroContent := some { transform := none } }
      { transform := none } hh rfl 250 800 (by rw [hw]; norm_num) (by rw [hi]; norm_num)
      (by norm_num) (by rw [hw]; norm_num) (by norm_num) (by rw [hi])).2.2.2.2.2.2.1,
    by norm_num [xPercent], by norm_num [yPercent]⟩

/-- C9: when the hero and its content exist, the `mouseleave` handler sets the hero content
transform to `translate(0, 0)` whatever it was before, in particular after a pointer move at
any position and after the scroll-driven `updateParallax`. The two writers do not compose:
after `updateParallax` the transform is the scroll value alone, after a pointer move it is the
pointer value alone. -/
theorem mouse_leave_resets (p : Page) (hero : Hero) (content : HeroContent)
    (hhero : p.hero = some hero) (hcontent : hero.heroContent = some content) :
    heroContentTransform (mouseLeave p) = some .translateZero
      ∧ (∀ clientX clientY : ℚ,
          heroContentTransform (mouseLeave (mouseMove clientX clientY p)) = some .translateZero)
      ∧ heroContentTransform (mouseLeave (updateParallax p)) = some .translateZero
      ∧ (∀ clientX clientY : ℚ,
          heroContentTransform (updateParallax (mouseMove clientX clientY p))
            = some (.translateY (p.scrollY * (1 / 2))))
      ∧ (∀ clientX clientY : ℚ,
          heroContentTransform (mouseMove clientX clientY (updateParallax p))
            = some (.translatePx (xPercent clientX p.innerWidth * 20)
                (yPercent clientY p.innerHeight * 20))) := by
  refine ⟨?_, ?_, ?_, ?_, ?_⟩
  · simp only [heroContentTransform, mouseLeave, hhero, hcontent, Option.map_some',
      Option.some_bind]
  · intro clientX clientY
    simp only [heroContentTransform, mouseLeave, mouseMove, hhero, hcontent, Option.map_some',
      Option.some_bind]
  · simp only [heroContentTransform, mouseLeave, updateParallax, updateHero, hhero, hcontent,
      Option.map_some', Option.some_bind]
  · intro clientX clientY
    simp only [heroContentTransform, mouseMove, updateParallax, updateHero, hhero, hcontent,
      Option.map_some', Option.some_bind, heroTranslateY]
  · intro clientX clientY
    simp only [heroContentTransform, mouseMove, updateParallax, updateHero, hhero, hcontent,
      Option.map_some', Option.some_bind, mouseTransform]

/-- Witness of C9: the sample page, whose hero has content. -/
theorem mouse_leave_resets_witness :
    (samplePage 120).hero
        = some { offsetHeight := 600, opacity := none, heroContent := some { transform := none } }
      ∧ heroContentTransform (mouseLeave (samplePage 120)) = some .translateZero
      ∧ heroContentTransform (mouseLeave (updateParallax (samplePage 120)))
          = some .translateZero :=
  have hh : (samplePage 120).hero
      = some { offsetHeight := 600, opacity := none, heroContent := some { transform := none } } := by
    simp [samplePage, init, sampleDocument, checkVisibility, updateScrollAnimations]
  ⟨hh,
    (mouse_leave_resets (samplePage 120)
      { offsetHeight := 600, opacity := none, heroContent := some { transform := none } }
      { transform := none } hh rfl).1,
    (mouse_leave_resets (samplePage 120)
      { offsetHeight := 600, opacity := none, heroContent := some { transform := none } }
      { transform := none } hh rfl).2.2.1⟩

/-! ## Lemmas on frame coalescing -/

theorem coalesced_init (d : Document) : Coalesced (init d) := by
  simp [Coalesced, init, checkVisibility, updateScrollAnimations]

theorem coalesced_onScrollAnimations (p : Page) (h : Coalesced p) :
    Coalesced (onScrollAnimations p) := by
  obtain ⟨h1, h2⟩ := h
  unfold onScrollAnimations
  cases ht : p.scrollTicking
  · rw [ht] at h1
    simp only [Bool.false_eq_true, if_false] at h1
    simp [Coalesced, requestAnimationFrame, List.count_append, h1, h2]
  · simpa [Coalesced, ht] using And.intro h1 h2

theorem coalesced_onScrollParallax (p : Page) (h : Coalesced p) :
    Coalesced (onScrollParallax p) := by
  obtain ⟨h1, h2⟩ := h
  unfold onScrollParallax
  cases ht : p.parallaxTicking
  · rw [ht] at h2
    simp only [Bool.false_eq_true, if_false] at h2
    simp [Coalesced, requestAnimationFrame, List.count_append, h1, h2]
  · simpa [Coalesced, ht] using And.intro h1 h2

theorem foldl_runCallback_spec (q : List Callback) : ∀ s : Page,
    (q.foldl runCallback s).frameQueue = s.frameQueue
      ∧ (q.foldl runCallback s).scrollRuns = s.scrollRuns + q.count .updateScrollAnimations
      ∧ (q.foldl runCallback s).parallaxRuns = s.parallaxRuns + q.count .updateParallax
      ∧ (q.foldl runCallback s).scrollTicking
          = (s.scrollTicking && decide (q.count .updateScrollAnimations = 0))
      ∧ (q.foldl runCallback s).parallaxTicking
          = (s.parallaxTicking && decide (q.count .updateParallax = 0)) := by
  induction q with
  | nil => intro s; simp
  | cons cb q ih =>
    intro s
    obtain ⟨h1, h2, h3, h4, h5⟩ := ih (runCallback s cb)
    rw [List.foldl_cons, h1, h2, h3, h4, h5]
    cases cb
    · simp [runCallback, updateScrollAnimations, List.count_cons]
      omega
    · simp [runCallback, updateParallax, List.count_cons]
      omega

theorem coalesced_animationFrame (p : Page) (h : Coalesced p) :
    (animationFrame p).frameQueue = []
      ∧ (animationFrame p).scrollTicking = false
      ∧ (animationFrame p).parallaxTicking = false := by
  obtain ⟨h1, h2⟩ := h
  obtain ⟨g1, -, -, g4, g5⟩ := foldl_runCallback_spec p.frameQueue { p with frameQueue := [] }
  unfold animationFrame
  refine ⟨g1, ?_, ?_⟩
  · rw [g4, h1]
    cases p.scrollTicking <;> simp
  · rw [g5, h2]
    cases p.parallaxTicking <;> simp

theorem observerCallback_control (entries : List Entry) : ∀ p : Page,
    (observerCallback entries p).frameQueue = p.frameQueue
      ∧ (observerCallback entries p).scrollTicking = p.scrollTicking
      ∧ (observerCallback entries p).parallaxTicking = p.parallaxTicking
      ∧ (observerCallback entries p).scrollRuns = p.scrollRuns
      ∧ (observerCallback entries p).parallaxRuns = p.parallaxRuns := by
  induction entries with
  | nil => intro p; exact ⟨rfl, rfl, rfl, rfl, rfl⟩
  | cons entry entries ih =>
    intro p
    unfold observerCallback at ih ⊢
    rw [List.foldl_cons]
    obtain ⟨h1, h2, h3, h4, h5⟩ :=
      ih (if entry.isIntersecting then addActive entry.target p else p)
    rw [h1, h2, h3, h4, h5]
    cases entry.isIntersecting
    · exact ⟨rfl, rfl, rfl, rfl, rfl⟩
    · cases entry.target <;> exact ⟨rfl, rfl, rfl, rfl, rfl⟩

theorem coalesced_step (p : Page) (e : Event) (h : Coalesced p) : Coalesced (step p e) := by
  cases e with
  | layout y w hh cs ss => exact h
  | scroll => exact coalesced_onScrollParallax _ (coalesced_onScrollAnimations _ h)
  | animationFrame =>
    obtain ⟨g1, g2, g3⟩ := coalesced_animationFrame p h
    simp [step, Coalesced, g1, g2, g3]
  | intersection entries =>
    obtain ⟨g1, g2, g3, -, -⟩ := observerCallback_control entries p
    simpa [step, Coalesced, g1, g2, g3] using h
  | checkVisibility => exact h
  | mouseMove x y => exact h
  | mouseLeave => exact h

theorem coalesced_run (events : List Event) : ∀ p : Page, Coalesced p →
    Coalesced (run events p) := by
  induction events with
  | nil => intro p h; exact h
  | cons e events ih =>
    intro p h
    unfold run at ih ⊢
    rw [List.foldl_cons]
    exact ih _ (coalesced_step p e h)

theorem onScroll_runs (p : Page) :
    (scrollEvent p).scrollRuns = p.scrollRuns ∧ (scrollEvent p).parallaxRuns = p.parallaxRuns := by
  have ha : ∀ q : Page, (onScrollAnimations q).scrollRuns = q.scrollRuns
      ∧ (onScrollAnimations q).parallaxRuns = q.parallaxRuns := by
    intro q
    unfold onScrollAnimations
    split <;> exact ⟨rfl, rfl⟩
  have hb : ∀ q : Page, (onScrollParallax q).scrollRuns = q.scrollRuns
      ∧ (onScrollParallax q).parallaxRuns = q.parallaxRuns := by
    intro q
    unfold onScrollParallax
    split <;> exact ⟨rfl, rfl⟩
  unfold scrollEvent
  exact ⟨(hb _).1.trans (ha p).1, (hb _).2.trans (ha p).2⟩

theorem step_runs_of_not_frame (p : Page) (e : Event) (he : e.isFrame = false) :
    (step p e).scrollRuns = p.scrollRuns ∧ (step p e).parallaxRuns = p.parallaxRuns := by
  cases e with
  | layout y w hh cs ss => exact ⟨rfl, rfl⟩
  | scroll => exact onScroll_runs p
  | animationFrame => simp [Event.isFrame] at he
  | intersection entries =>
    obtain ⟨-, -, -, g4, g5⟩ := observerCallback_control entries p
    exact ⟨g4, g5⟩
  | checkVisibility => exact ⟨rfl, rfl⟩
  | mouseMove x y => exact ⟨rfl, rfl⟩
  | mouseLeave => exact ⟨rfl, rfl⟩

theorem run_runs_of_no_frame (events : List Event) : ∀ p : Page,
    events.all (fun e => !e.isFrame) = true →
    (run events p).scrollRuns = p.scrollRuns ∧ (run events p).parallaxRuns = p.parallaxRuns := by
  induction events with
  | nil => intro p _; exact ⟨rfl, rfl⟩
  | cons e events ih =>
    intro p h
    rw [List.all_cons, Bool.and_eq_true] at h
    obtain ⟨he, hrest⟩ := h
    have he2 : e.isFrame = false := by
      cases hf : e.isFrame
      · rfl
      · rw [hf] at he
        exact absurd he (by decide)
    obtain ⟨s1, s2⟩ := step_runs_of_not_frame p e he2
    unfold run at ih ⊢
    rw [List.foldl_cons]
    obtain ⟨r1, r2⟩ := ih (step p e) hrest
    exact ⟨r1.trans s1, r2.trans s2⟩

/-! ## Claim on frame coalescing -/

/-- C5: start from a freshly set-up page, let any events happen (`before`), and then any
sequence of events without a rendered frame (`between`, for instance 100 scroll events).
Then at most one `updateScrollAnimations` and at most one `updateParallax` callback is
pending, each flag is `true` exactly while its callback is pending, the next frame runs each
update at most once (exactly as often as it is pending) and leaves both flags `false` and
nothing pending; and the listener and callback of one effect never touch the flag of the
other. -/
theorem frame_coalescing (d : Document) (before between : List Event)
    (hno : between.all (fun e => !e.isFrame) = true) :
    (run between (run before (init d))).frameQueue.count .updateScrollAnimations ≤ 1
      ∧ (run between (run before (init d))).frameQueue.count .updateParallax ≤ 1
      ∧ ((run between (run before (init d))).scrollTicking = true
          ↔ Callback.updateScrollAnimations ∈ (run between (run before (init d))).frameQueue)
      ∧ ((run between (run before (init d))).parallaxTicking = true
          ↔ Callback.updateParallax ∈ (run between (run before (init d))).frameQueue)
      ∧ (animationFrame (run between (run before (init d)))).scrollRuns
          = (run before (init d)).scrollRuns
            + (run between (run before (init d))).frameQueue.count .updateScrollAnimations
      ∧ (animationFrame (run between (run before (init d)))).parallaxRuns
          = (run before (init d)).parallaxRuns
            + (run between (run before (init d))).frameQueue.count .updateParallax
      ∧ (animationFrame (run between (run before (init d)))).scrollRuns
          ≤ (run before (init d)).scrollRuns + 1
      ∧ (animationFrame (run between (run before (init d)))).parallaxRuns
          ≤ (run before (init d)).parallaxRuns + 1
      ∧ (animationFrame (run between (run before (init d)))).frameQueue = []
      ∧ (animationFrame (run between (run before (init d)))).scrollTicking = false
      ∧ (animationFrame (run between (run before (init d)))).parallaxTicking = false
      ∧ (∀ q : Page, (onScrollAnimations q).parallaxTicking = q.parallaxTicking
          ∧ (updateScrollAnimations q).parallaxTicking = q.parallaxTicking
          ∧ (onScrollParallax q).scrollTicking = q.scrollTicking
          ∧ (updateParallax q).scrollTicking = q.scrollTicking) := by
  have hinv : Coalesced (run between (run before (init d))) :=
    coalesced_run between _ (coalesced_run before _ (coalesced_init d))
  obtain ⟨r1, r2⟩ := run_runs_of_no_frame between (run before (init d)) hno
  generalize run between (run before (init d)) = s at hinv r1 r2 ⊢
  generalize run before (init d) = s0 at r1 r2 ⊢
  obtain ⟨h1, h2⟩ := hinv
  obtain ⟨-, g2, g3, -, -⟩ := foldl_runCallback_spec s.frameQueue { s with frameQueue := [] }
  obtain ⟨f1, f2, f3⟩ := coalesced_animationFrame s ⟨h1, h2⟩
  have c1 : s.frameQueue.count .updateScrollAnimations ≤ 1 := by
    rw [h1]
    split <;> omega
  have c2 : s.frameQueue.count .updateParallax ≤ 1 := by
    rw [h2]
    split <;> omega
  have e1 : (animationFrame s).scrollRuns
      = s0.scrollRuns + s.frameQueue.count .updateScrollAnimations := by
    unfold animationFrame
    rw [g2, ← r1]
  have e2 : (animationFrame s).parallaxRuns
      = s0.parallaxRuns + s.frameQueue.count .updateParallax := by
    unfold animationFrame
    rw [g3, ← r2]
  refine ⟨c1, c2, ?_, ?_, e1, e2, by omega, by omega, f1, f2, f3, ?_⟩
  · rw [← List.count_pos_iff, h1]
    cases s.scrollTicking <;> simp
  · rw [← List.count_pos_iff, h2]
    cases s.parallaxTicking <;> simp
  · intro q
    refine ⟨?_, rfl, ?_, rfl⟩
    · unfold onScrollAnimations
      split <;> rfl
    · unfold onScrollParallax
      split <;> rfl

/-- Witness of C5: 100 scroll events on the freshly set-up sample page, then one frame. -/
theorem frame_coalescing_witness :
    (List.replicate 100 Event.scroll).all (fun e => !e.isFrame) = true
      ∧ (animationFrame (run (List.replicate 100 Event.scroll)
            (run [] (init (sampleDocument 0))))).scrollRuns
          ≤ (run [] (init (sampleDocument 0))).scrollRuns + 1
      ∧ (animationFrame (run (List.replicate 100 Event.scroll)
            (run [] (init (sampleDocument 0))))).parallaxRuns
          ≤ (run [] (init (sampleDocument 0))).parallaxRuns + 1 :=
  have hno : (List.replicate 100 Event.scroll).all (fun e => !e.isFrame) = true := by
    simp [Event.isFrame]
  ⟨hno, (frame_coalescing (sampleDocument 0) [] (List.replicate 100 Event.scroll) hno).2.2.2.2.2.2.1,
    (frame_coalescing (sampleDocument 0) [] (List.replicate 100 Event.scroll) hno).2.2.2.2.2.2.2.1⟩

/-! ## Lemmas on the reveal flag -/

theorem any_get?_modifyAt {α : Type} (act : α → Bool) (f : α → α)
    (hf : ∀ a, act a = true → act (f a) = true) : ∀ (l : List α) (i j : Nat),
    (l.get? j).any act = true → ((modifyAt f i l).get? j).any act = true := by
  intro l
  induction l with
  | nil => intro i j h; cases i <;> exact h
  | cons a l ih =>
    intro i j h
    cases i with
    | zero =>
      cases j with
      | zero => exact hf a h
      | succ j => exact h
    | succ i =>
      cases j with
      | zero => exact h
      | succ j => exact ih i j h

theorem any_get?_map {α : Type} (act : α → Bool) (f : α → α)
    (hf : ∀ a, act a = true → act (f a) = true) : ∀ (l : List α) (j : Nat),
    (l.get? j).any act = true → ((l.map f).get? j).any act = true := by
  intro l
  induction l with
  | nil => intro j h; exact h
  | cons a l ih =>
    intro j h
    cases j with
    | zero => exact hf a h
    | succ j => exact ih j h

theorem any_get?_setRects {α : Type} (act : α → Bool) (set : α → Rect → α)
    (hset : ∀ a r, act a = true → act (set a r) = true) : ∀ (l : List α) (rects : List Rect)
    (j : Nat), (l.get? j).any act = true → ((setRects set l rects).get? j).any act = true := by
  intro l
  induction l with
  | nil => intro rects j h; exact h
  | cons a l ih =>
    intro rects j h
    cases rects with
    | nil => exact h
    | cons r rects =>
      cases j with
      | zero => exact hset a r h
      | succ j => exact ih rects j h

theorem updateCard_active (windowHeight : ℚ) (card : Card) :
    (updateCard windowHeight card).active = card.active := by
  unfold updateCard
  split <;> rfl

theorem isActive_addActive (t u : Target) (p : Page) (h : isActive t p = true) :
    isActive t (addActive u p) = true := by
  cases u with
  | card i =>
    cases t with
    | card j =>
      exact any_get?_modifyAt (fun c : Card => c.active) (fun c => { c with active := true })
        (fun _ _ => rfl) p.subjectCards i j h
    | sectionElem j => exact h
  | sectionElem i =>
    cases t with
    | card j => exact h
    | sectionElem j =>
      exact any_get?_modifyAt (fun s : Section => s.active) (fun s => { s with active := true })
        (fun _ _ => rfl) p.sections i j h

theorem isActive_observerCallback (t : Target) (entries : List Entry) : ∀ p : Page,
    isActive t p = true → isActive t (observerCallback entries p) = true := by
  induction entries with
  | nil => intro p h; exact h
  | cons entry entries ih =>
    intro p h
    unfold observerCallback at ih ⊢
    rw [List.foldl_cons]
    apply ih
    cases entry.isIntersecting
    · exact h
    · exact isActive_addActive t entry.target p h

theorem isActive_checkVisibility (t : Target) (p : Page) (h : isActive t p = true) :
    isActive t (checkVisibility p) = true := by
  cases t with
  | card j =>
    refine any_get?_map (fun c : Card => c.active)
      (fun card => if inViewport card.rect p.innerHeight then { card with active := true }
        else card) (fun a ha => ?_) p.subjectCards j h
    show (if inViewport a.rect p.innerHeight then { a with active := true } else a).active = true
    split
    · rfl
    · exact ha
  | sectionElem j =>
    refine any_get?_map (fun s : Section => s.active)
      (fun s => if inViewport s.rect p.innerHeight then { s with active := true } else s)
      (fun a ha => ?_) p.sections j h
    show (if inViewport a.rect p.innerHeight then { a with active := true } else a).active = true
    split
    · rfl
    · exact ha

theorem isActive_updateScrollAnimations (t : Target) (p : Page) (h : isActive t p = true) :
    isActive t (updateScrollAnimations p) = true := by
  cases t with
  | card j =>
    exact any_get?_map (fun c : Card => c.active) (updateCard p.innerHeight)
      (fun a ha => (updateCard_active p.innerHeight a).trans ha) p.subjectCards j h
  | sectionElem j => exact h

theorem isActive_updateParallax (t : Target) (p : Page) (h : isActive t p = true) :
    isActive t (updateParallax p) = true := by
  cases t <;> exact h

theorem isActive_scrollEvent (t : Target) (p : Page) (h : isActive t p = true) :
    isActive t (scrollEvent p) = true := by
  have ha : ∀ q : Page, isActive t (onScrollAnimations q) = isActive t q := by
    intro q
    unfold onScrollAnimations
    split
    · cases t <;> rfl
    · rfl
  have hb : ∀ q : Page, isActive t (onScrollParallax q) = isActive t q := by
    intro q
    unfold onScrollParallax
    split
    · cases t <;> rfl
    · rfl
  unfold scrollEvent
  rw [hb, ha]
  exact h

theorem isActive_foldl_runCallback (t : Target) (q : List Callback) : ∀ p : Page,
    isActive t p = true → isActive t (q.foldl runCallback p) = true := by
  induction q with
  | nil => intro p h; exact h
  | cons cb q ih =>
    intro p h
    rw [List.foldl_cons]
    apply ih
    cases cb
    · exact isActive_updateScrollAnimations t p h
    · exact isActive_updateParallax t p h

theorem isActive_animationFrame (t : Target) (p : Page) (h : isActive t p = true) :
    isActive t (animationFrame p) = true := by
  unfold animationFrame
  apply isActive_foldl_runCallback
  cases t <;> exact h

theorem isActive_layout (t : Target) (scrollY innerWidth innerHeight : ℚ)
    (cardRects sectionRects : List Rect) (p : Page) (h : isActive t p = true) :
    isActive t (layout scrollY innerWidth innerHeight cardRects sectionRects p) = true := by
  cases t with
  | card j =>
    exact any_get?_setRects (fun c : Card => c.active) (fun c r => { c with rect := r })
      (fun _ _ ha => ha) p.subjectCards cardRects j h
  | sectionElem j =>
    exact any_get?_setRects (fun s : Section => s.active) (fun s r => { s with rect := r })
      (fun _ _ ha => ha) p.sections sectionRects j h

theorem isActive_step (t : Target) (p : Page) (e : Event) (h : isActive t p = true) :
    isActive t (step p e) = true := by
  cases e with
  | layout y w hh cs ss => exact isActive_layout t y w hh cs ss p h
  | scroll => exact isActive_scrollEvent t p h
  | animationFrame => exact isActive_animationFrame t p h
  | intersection entries => exact isActive_observerCallback t entries p h
  | checkVisibility => exact isActive_checkVisibility t p h
  | mouseMove x y => cases t <;> exact h
  | mouseLeave => cases t <;> exact h

theorem isActive_run (t : Target) (events : List Event) : ∀ p : Page,
    isActive t p = true → isActive t (run events p) = true := by
  induction events with
  | nil => intro p h; exact h
  | cons e events ih =>
    intro p h
    unfold run at ih ⊢
    rw [List.foldl_cons]
    exact ih _ (isActive_step t p e h)

/-! ## Claim on the reveal flag -/

/-- C6: the `active` flag is monotonic. For every element that is active in a page state,
it is still active after any single event (a geometry change by scrolling or resizing, a scroll
event, a rendered frame, an observer callback with any entries, a `checkVisibility` run, a
pointer move or leave), after any sequence of events, and after a direct run of
`observerCallback`, `checkVisibility`, `updateScrollAnimations` or `updateParallax`; in
particular after new geometry that puts the element out of view followed by a scroll event, a
frame, an observer report that it no longer intersects, and a `checkVisibility` run. -/
theorem active_flag_monotonic (p : Page) (t : Target) (hactive : isActive t p = true) :
    (∀ e : Event, isActive t (step p e) = true)
      ∧ (∀ events : List Event, isActive t (run events p) = true)
      ∧ (∀ entries : List Entry, isActive t (observerCallback entries p) = true)
      ∧ isActive t (checkVisibility p) = true
      ∧ isActive t (updateScrollAnimations p) = true
      ∧ isActive t (updateParallax p) = true
      ∧ (∀ (scrollY innerWidth innerHeight : ℚ) (cardRects sectionRects : List Rect),
          isActive t (run [.layout scrollY innerWidth innerHeight cardRects sectionRects,
            .scroll, .animationFrame, .intersection [{ target := t, isIntersecting := false }],
            .checkVisibility] p) = true) :=
  ⟨fun e => isActive_step t p e hactive,
    fun events => isActive_run t events p hactive,
    fun entries => isActive_observerCallback t entries p hactive,
    isActive_checkVisibility t p hactive,
    isActive_updateScrollAnimations t p hactive,
    isActive_updateParallax t p hactive,
    fun _ _ _ _ _ => isActive_run t _ p hactive⟩

/-- Witness of C6: the first sample card is in view at start-up, so it is active; it stays
active when the page is scrolled by 5000 (its top moves to -4700), the scroll is processed,
the observer reports it as not intersecting and `checkVisibility` runs again. -/
theorem active_flag_monotonic_witness :
    isActive (.card 0) (samplePage 0) = true
      ∧ isActive (.card 0)
          (run [.layout 5000 1000 800 [{ top := -4700, height := 200 }] [], .scroll,
            .animationFrame, .intersection [{ target := .card 0, isIntersecting := false }],
            .checkVisibility] (samplePage 0)) = true :=
  have ha : isActive (.card 0) (samplePage 0) = true := by
    norm_num [isActive, samplePage, init, sampleDocument, checkVisibility,
      updateScrollAnimations, updateCard, inWindow, inViewport, sampleCard, Rect.bottom]
  ⟨ha, (active_flag_monotonic (samplePage 0) (.card 0) ha).2.1 _⟩

/-! ## Lemmas on binary64 rounding -/

theorem roundHalfEven_of_near (q : ℚ) (n : ℤ) (h1 : (n : ℚ) - 1 / 2 < q) (h2 : q < n + 1 / 2) :
    roundHalfEven q = n := by
  unfold roundHalfEven
  have hf1 : (⌊q⌋ : ℚ) ≤ q := Int.floor_le q
  have hf2 : q < ⌊q⌋ + 1 := Int.lt_floor_add_one q
  by_cases hlt : q - ⌊q⌋ < 1 / 2
  · rw [if_pos hlt]
    have a : (⌊q⌋ : ℚ) < n + 1 := by linarith
    have b : (n : ℚ) < ⌊q⌋ + 1 := by linarith
    have a' : ⌊q⌋ < n + 1 := by exact_mod_cast a
    have b' : n < ⌊q⌋ + 1 := by exact_mod_cast b
    omega
  · rw [if_neg hlt]
    have a : (⌊q⌋ : ℚ) < n := by linarith
    have b : (n : ℚ) < ⌊q⌋ + 2 := by linarith
    have a' : ⌊q⌋ < n := by exact_mod_cast a
    have b' : n < ⌊q⌋ + 2 := by exact_mod_cast b
    have hn : n = ⌊q⌋ + 1 := by omega
    by_cases hgt : 1 / 2 < q - ⌊q⌋
    · rw [if_pos hgt, hn]
    · exfalso
      have : q - ⌊q⌋ = 1 / 2 := le_antisymm (not_lt.mp hgt) (not_lt.mp hlt)
      rw [hn] at h1
      push_cast at h1
      linarith

theorem le_roundHalfEven (q : ℚ) (m : ℤ) (h : (m : ℚ) ≤ q) : m ≤ roundHalfEven q := by
  have hm : m ≤ ⌊q⌋ := Int.le_floor.mpr h
  unfold roundHalfEven
  split
  · exact hm
  · split
    · omega
    · split
      · exact hm
      · omega

theorem quantum_eq (x : ℚ) (k : ℤ) (h1 : (2 : ℚ) ^ k ≤ |x|) (h2 : |x| < 2 ^ (k + 1)) :
    quantum x = max k (-1022) - 52 := by
  have hpos : 0 < |x| := lt_of_lt_of_le (zpow_pos (by norm_num) k) h1
  have hk : Int.log 2 |x| = k := by
    apply le_antisymm
    · have := (Int.lt_zpow_iff_log_lt (b := 2) (by norm_num) hpos (x := k + 1)).mp (by exact_mod_cast h2)
      omega
    · exact (Int.zpow_le_iff_le_log (b := 2) (by norm_num) hpos).mp (by exact_mod_cast h1)
  unfold quantum
  rw [hk]

theorem round64_eq (x : ℚ) (k e n : ℤ) (hx : 0 < x) (h1 : (2 : ℚ) ^ k ≤ x)
    (h2 : x < 2 ^ (k + 1)) (he : max k (-1022) - 52 = e)
    (hn1 : (n : ℚ) - 1 / 2 < x / 2 ^ e) (hn2 : x / 2 ^ e < n + 1 / 2)
    (hfin : (n : ℚ) * 2 ^ e < 2 ^ 1024) :
    round64 x = .finite (n * 2 ^ e) := by
  have habs : |x| = x := abs_of_pos hx
  have hq : quantum x = e := by
    rw [quantum_eq x k (by rw [habs]; exact h1) (by rw [habs]; exact h2), he]
  have hpe : (0 : ℚ) < 2 ^ e := zpow_pos (by norm_num) e
  have hn0 : (0 : ℚ) ≤ n := by
    have h : (0 : ℚ) < x / 2 ^ e := div_pos hx hpe
    have h3 : (-1 : ℚ) < n := by linarith
    have h4 : (-1 : ℤ) < n := by exact_mod_cast h3
    have h5 : (0 : ℤ) ≤ n := by omega
    exact_mod_cast h5
  have hy : |(n : ℚ) * 2 ^ e| = n * 2 ^ e := abs_of_nonneg (mul_nonneg hn0 hpe.le)
  unfold round64
  rw [if_neg hx.ne', hq, roundHalfEven_of_near _ n hn1 hn2, hy, if_neg (not_le.mpr hfin)]

theorem round64_ge_one (x : ℚ) (hx : 1 ≤ x) :
    round64 x = .inf false ∨ ∃ y : ℚ, round64 x = .finite y ∧ 1 ≤ y := by
  have hpos : 0 < x := lt_of_lt_of_le zero_lt_one hx
  have habs : |x| = x := abs_of_pos hpos
  have hk0 : 0 ≤ Int.log 2 x := by
    have := Int.log_mono_right (b := 2) zero_lt_one hx
    rwa [Int.log_one_right] at this
  have hkx : (2 : ℚ) ^ Int.log 2 x ≤ x := by
    exact_mod_cast Int.zpow_log_le_self (b := 2) (by norm_num) hpos
  have hq : quantum x = Int.log 2 x - 52 := by
    unfold quantum
    rw [habs, max_eq_left (by omega)]
  have hpe : (0 : ℚ) < 2 ^ (Int.log 2 x - 52) := zpow_pos (by norm_num) _
  have hsplit : (2 : ℚ) ^ Int.log 2 x = 2 ^ (52 : ℤ) * 2 ^ (Int.log 2 x - 52) := by
    rw [← zpow_add₀ (by norm_num : (2 : ℚ) ≠ 0)]
    congr 1
    omega
  have hdiv : (((2 : ℤ) ^ 52 : ℤ) : ℚ) ≤ x / 2 ^ (Int.log 2 x - 52) := by
    rw [le_div_iff₀ hpe]
    push_cast
    calc (2 : ℚ) ^ 52 * 2 ^ (Int.log 2 x - 52) = 2 ^ Int.log 2 x := by
          rw [hsplit]
          norm_num
      _ ≤ x := hkx
  have hn := le_roundHalfEven _ _ hdiv
  have hy : (1 : ℚ) ≤ (roundHalfEven (x / 2 ^ (Int.log 2 x - 52)) : ℚ) * 2 ^ (Int.log 2 x - 52) := by
    have h1 : (1 : ℚ) ≤ 2 ^ Int.log 2 x := one_le_zpow₀ (by norm_num) hk0
    have h2 : ((2 : ℤ) ^ 52 : ℤ) * (2 : ℚ) ^ (Int.log 2 x - 52)
        ≤ (roundHalfEven (x / 2 ^ (Int.log 2 x - 52)) : ℚ) * 2 ^ (Int.log 2 x - 52) :=
      mul_le_mul_of_nonneg_right (by exact_mod_cast hn) hpe.le
    have h3 : (((2 : ℤ) ^ 52 : ℤ) : ℚ) * (2 : ℚ) ^ (Int.log 2 x - 52) = 2 ^ Int.log 2 x := by
      rw [hsplit]
      norm_num
    linarith
  unfold round64
  rw [if_neg hpos.ne', hq]
  split
  · left
    rw [decide_eq_false (not_lt.mpr hpos.le)]
  · right
    exact ⟨_, rfl, hy⟩

theorem lit_one : Double.lit 1 = .finite 1 := by
  unfold Double.lit
  rw [round64_eq 1 0 (-52) (2 ^ 52) (by norm_num) (by norm_num) (by norm_num) (by decide)
    (by norm_num) (by norm_num) (by norm_num)]
  norm_num

theorem lit_tenth : Double.lit (1 / 10) = .finite (3602879701896397 / 2 ^ 55) := by
  unfold Double.lit
  rw [round64_eq (1 / 10) (-4) (-56) 7205759403792794 (by norm_num) (by norm_num) (by norm_num)
    (by decide) (by norm_num) (by norm_num) (by norm_num)]
  norm_num

theorem lit_seven_tenths : Double.lit (7 / 10) = .finite (3152519739159347 / 2 ^ 52) := by
  unfold Double.lit
  rw [round64_eq (7 / 10) (-1) (-53) 6305039478318694 (by norm_num) (by norm_num) (by norm_num)
    (by decide) (by norm_num) (by norm_num) (by norm_num)]
  norm_num

theorem lit_three_tenths : Double.lit (3 / 10) = .finite (5404319552844595 / 2 ^ 54) := by
  unfold Double.lit
  rw [round64_eq (3 / 10) (-2) (-54) 5404319552844595 (by norm_num) (by norm_num) (by norm_num)
    (by decide) (by norm_num) (by norm_num) (by norm_num)]
  norm_num

theorem lit_nine_tenths : Double.lit (9 / 10) = .finite (8106479329266893 / 2 ^ 53) := by
  unfold Double.lit
  rw [round64_eq (9 / 10) (-1) (-53) 8106479329266893 (by norm_num) (by norm_num) (by norm_num)
    (by decide) (by norm_num) (by norm_num) (by norm_num)]
  norm_num

theorem Double.mul_finite (a b : ℚ) :
    (Double.finite a).mul (Double.finite b) = round64 (a * b) := rfl

theorem Double.sub_finite (a b : ℚ) :
    (Double.finite a).sub (Double.finite b) = round64 (a + -b) := rfl

theorem Double.add_finite (a b : ℚ) :
    (Double.finite a).add (Double.finite b) = round64 (a + b) := rfl

theorem Double.div_finite (a b : ℚ) (hb : b ≠ 0) :
    (Double.finite a).div (Double.finite b) = round64 (a / b) := by
  show (if b = 0 then _ else _) = _
  rw [if_neg hb]

theorem scale_of_normalizedDistance_one_binary64 (top height windowHeight : Double)
    (h : Float64.normalizedDistance top height windowHeight = .finite 1) :
    Float64.scale top height windowHeight = .finite (8106479329266893 / 2 ^ 53) := by
  have hmul : round64 (1 * (3602879701896397 / 2 ^ 55)) = .finite (3602879701896397 / 2 ^ 55) := by
    rw [round64_eq (1 * (3602879701896397 / 2 ^ 55)) (-4) (-56) 7205759403792794 (by norm_num)
      (by norm_num) (by norm_num) (by decide) (by norm_num) (by norm_num) (by norm_num)]
    norm_num
  have hsub : round64 (1 + -(3602879701896397 / 2 ^ 55)) = .finite (8106479329266893 / 2 ^ 53) := by
    rw [round64_eq (1 + -(3602879701896397 / 2 ^ 55)) (-1) (-53) 8106479329266893 (by norm_num)
      (by norm_num) (by norm_num) (by decide) (by norm_num) (by norm_num) (by norm_num)]
    norm_num
  unfold Float64.scale
  rw [h, lit_one, lit_tenth, Double.mul_finite, hmul, Double.sub_finite, hsub]

theorem opacity_of_normalizedDistance_one_binary64 (top height windowHeight : Double)
    (h : Float64.normalizedDistance top height windowHeight = .finite 1) :
    Float64.opacity top height windowHeight = .finite (5404319552844596 / 2 ^ 54) := by
  have hmul : round64 (1 * (3152519739159347 / 2 ^ 52)) = .finite (3152519739159347 / 2 ^ 52) := by
    rw [round64_eq (1 * (3152519739159347 / 2 ^ 52)) (-1) (-53) 6305039478318694 (by norm_num)
      (by norm_num) (by norm_num) (by decide) (by norm_num) (by norm_num) (by norm_num)]
    norm_num
  have hsub : round64 (1 + -(3152519739159347 / 2 ^ 52)) = .finite (5404319552844596 / 2 ^ 54) := by
    rw [round64_eq (1 + -(3152519739159347 / 2 ^ 52)) (-2) (-54) 5404319552844596 (by norm_num)
      (by norm_num) (by norm_num) (by decide) (by norm_num) (by norm_num) (by norm_num)]
    norm_num
  unfold Float64.opacity
  rw [h, lit_one, lit_three_tenths, lit_seven_tenths, Double.mul_finite, hmul, Double.sub_finite,
    hsub]
  show (if Double.le _ _ then _ else _) = _
  rw [if_pos]
  show decide (_ ≤ _) = true
  rw [decide_eq_true_eq]
  norm_num

theorem Double.one_le_div_of_le (d : Double) (w : ℚ) (hw : 0 < w)
    (h : (Double.finite w).le d = true) : (Double.finite 1).le (d.div (.finite w)) = true := by
  cases d with
  | finite x =>
    have hx : w ≤ x := of_decide_eq_true h
    rw [Double.div_finite x w hw.ne']
    rcases round64_ge_one (x / w) ((one_le_div hw).mpr hx) with h1 | ⟨y, h1, h2⟩
    · rw [h1]
      rfl
    · rw [h1]
      exact decide_eq_true h2
  | inf s =>
    cases s
    · show (!(xor false (decide (w < 0)))) = true
      rw [decide_eq_false (not_lt.mpr hw.le)]
      rfl
    · simp [Double.le] at h
  | nan => simp [Double.le] at h

theorem Double.min_one_of_one_le (d : Double) (h : (Double.finite 1).le d = true) :
    d.min (.finite 1) = .finite 1 := by
  cases d with
  | finite x =>
    have hx : (1 : ℚ) ≤ x := of_decide_eq_true h
    show (if Double.le _ _ then _ else _) = _
    by_cases hle : x ≤ 1
    · have : x = 1 := le_antisymm hle hx
      rw [this]
      simp [Double.le]
    · rw [if_neg]
      show ¬ (decide (x ≤ 1) = true)
      rw [decide_eq_true_eq]
      exact hle
  | inf s =>
    cases s
    · rfl
    · simp [Double.le] at h
  | nan => simp [Double.le] at h

theorem lit_two : Double.lit 2 = .finite 2 := by
  unfold Double.lit
  rw [round64_eq 2 1 (-51) (2 ^ 52) (by norm_num) (by norm_num) (by norm_num) (by decide)
    (by norm_num) (by norm_num) (by norm_num)]
  norm_num

theorem normalizedDistance_of_far_binary64 (top height : Double) (windowHeight : ℚ)
    (hpos : 0 < windowHeight)
    (hfar : (Double.finite windowHeight).le
      (Float64.distance top height (.finite windowHeight)) = true) :
    Float64.normalizedDistance top height (.finite windowHeight) = .finite 1 := by
  unfold Float64.normalizedDistance
  rw [lit_one]
  exact Double.min_one_of_one_le _ (Double.one_le_div_of_le _ windowHeight hpos hfar)

theorem sample_distance_binary64 :
    Float64.distance (.finite 2000) (.finite 200) (.finite 800) = .finite 1700 := by
  have h1 : round64 (200 / 2) = .finite 100 := by
    rw [round64_eq (200 / 2) 6 (-46) (100 * 2 ^ 46) (by norm_num) (by norm_num) (by norm_num)
      (by decide) (by norm_num) (by norm_num) (by norm_num)]
    norm_num
  have h2 : round64 (2000 + 100) = .finite 2100 := by
    rw [round64_eq (2000 + 100) 11 (-41) (2100 * 2 ^ 41) (by norm_num) (by norm_num)
      (by norm_num) (by decide) (by norm_num) (by norm_num) (by norm_num)]
    norm_num
  have h3 : round64 (800 / 2) = .finite 400 := by
    rw [round64_eq (800 / 2) 8 (-44) (400 * 2 ^ 44) (by norm_num) (by norm_num) (by norm_num)
      (by decide) (by norm_num) (by norm_num) (by norm_num)]
    norm_num
  have h4 : round64 (2100 + -400) = .finite 1700 := by
    rw [round64_eq (2100 + -400) 10 (-42) (1700 * 2 ^ 42) (by norm_num) (by norm_num)
      (by norm_num) (by decide) (by norm_num) (by norm_num) (by norm_num)]
    norm_num
  unfold Float64.distance Float64.cardCenter Float64.viewportCenter
  rw [lit_two, Double.div_finite 200 2 (by norm_num), h1, Double.add_finite, h2,
    Double.div_finite 800 2 (by norm_num), h3, Double.sub_finite, h4]
  show Double.finite |1700| = Double.finite 1700
  norm_num

theorem sample_far_binary64 :
    (Double.finite 800).le (Float64.distance (.finite 2000) (.finite 200) (.finite 800))
      = true := by
  rw [sample_distance_binary64]
  show decide ((800 : ℚ) ≤ 1700) = true
  rw [decide_eq_true_eq]
  norm_num

/-! ## Claim on the clamped case -/

/-- C2, as amended: for every card and positive viewport height with
`distance >= viewportHeight`, lines 59-63 evaluated in binary64 give `normalizedDistance == 1`
and `scale == 0.9`, and `opacity == 1 - 0.7 = 0.30000000000000004`, that is
`5404319552844596 / 2^54`, the binary64 value next above `0.3` (`5404319552844595 / 2^54`), so
`opacity == 0.3` is false; in exact arithmetic the same formulas give 1, 0.9 and 0.3. -/
theorem clamped_case_binary64 (top height : Double) (windowHeight : ℚ)
    (hpos : 0 < windowHeight)
    (hfar : (Double.finite windowHeight).le
      (Float64.distance top height (.finite windowHeight)) = true) :
    Float64.normalizedDistance top height (.finite windowHeight) = .finite 1
      ∧ Float64.scale top height (.finite windowHeight) = Double.lit (9 / 10)
      ∧ Float64.opacity top height (.finite windowHeight) = .finite (5404319552844596 / 2 ^ 54)
      ∧ Double.lit (3 / 10) = .finite (5404319552844595 / 2 ^ 54)
      ∧ Float64.opacity top height (.finite windowHeight) ≠ Double.lit (3 / 10)
      ∧ (∀ rect : Rect, windowHeight ≤ distance rect windowHeight →
          normalizedDistance rect windowHeight = 1
            ∧ scale rect windowHeight = 9 / 10
            ∧ opacity rect windowHeight = 3 / 10) := by
  have hn := normalizedDistance_of_far_binary64 top height windowHeight hpos hfar
  refine ⟨hn, ?_, opacity_of_normalizedDistance_one_binary64 _ _ _ hn, lit_three_tenths, ?_, ?_⟩
  · rw [scale_of_normalizedDistance_one_binary64 _ _ _ hn, lit_nine_tenths]
  · rw [opacity_of_normalizedDistance_one_binary64 _ _ _ hn, lit_three_tenths]
    intro h
    injection h with h
    norm_num at h
  · intro rect hrect
    exact clamped_case_exact rect windowHeight hpos hrect

/-- Witness of C2 as amended: a card with top 2000 and height 200 in a viewport of height 800
(distance 1700). -/
theorem clamped_case_binary64_witness :
    (0 : ℚ) < 800
      ∧ (Double.finite 800).le (Float64.distance (.finite 2000) (.finite 200) (.finite 800))
          = true
      ∧ Float64.normalizedDistance (.finite 2000) (.finite 200) (.finite 800) = .finite 1
      ∧ Float64.scale (.finite 2000) (.finite 200) (.finite 800) = Double.lit (9 / 10)
      ∧ Float64.opacity (.finite 2000) (.finite 200) (.finite 800)
          = .finite (5404319552844596 / 2 ^ 54) :=
  ⟨by norm_num, sample_far_binary64,
    (clamped_case_binary64 (.finite 2000) (.finite 200) 800 (by norm_num)
      sample_far_binary64).1,
    (clamped_case_binary64 (.finite 2000) (.finite 200) 800 (by norm_num)
      sample_far_binary64).2.1,
    (clamped_case_binary64 (.finite 2000) (.finite 200) 800 (by norm_num)
      sample_far_binary64).2.2.1⟩

/-- Counterexample to C2 as stated: for a card with top 2000 and height 200 in a viewport of
height 800 the distance 1700 is at least the viewport height, and line 63 evaluated in binary64
gives the opacity `5404319552844596 / 2^54`, which is neither the binary64 value of the literal
`0.3` nor the rational 3/10. -/
theorem clamped_opacity_is_not_three_tenths :
    (Double.finite 800).le (Float64.distance (.finite 2000) (.finite 200) (.finite 800))
        = true
      ∧ Float64.opacity (.finite 2000) (.finite 200) (.finite 800)
          = .finite (5404319552844596 / 2 ^ 54)
      ∧ Float64.opacity (.finite 2000) (.finite 200) (.finite 800) ≠ Double.lit (3 / 10)
      ∧ Float64.opacity (.finite 2000) (.finite 200) (.finite 800) ≠ .finite (3 / 10) := by
  have hn := normalizedDistance_of_far_binary64 (.finite 2000) (.finite 200) 800 (by norm_num)
    sample_far_binary64
  have ho := opacity_of_normalizedDistance_one_binary64 _ _ _ hn
  refine ⟨sample_far_binary64, ho, ?_, ?_⟩
  · rw [ho, lit_three_tenths]
    intro h
    injection h with h
    norm_num at h
  · rw [ho]
    intro h
    injection h with h
    norm_num at h

end KnowledgeMuseum
